import Mathlib

/-!
Shallow embedding of the `llm-cli` chat client (Rust) for specification
verification.  The embedding covers the parts of the program the claims
are about:

* the session/config data model (`src/config.rs`),
* the per-provider response normalization performed by each provider
  module's `generate` / `list_models` after a successful HTTP transport
  (`src/llm/gemini.rs`, `src/llm/openai_compatible.rs`,
  `src/llm/ollama.rs`, `src/llm/huggingface.rs`),
* the shared `handle_api_response` body-parsing step,
* the request shape (URL, per-request timeout) of each provider's
  `check_connection` probe,
* the REPL input dispatcher and the state-mutating command handlers
  (`src/cli/repl.rs`).

Modelling conventions:

* Rust `Result<T>` (anyhow) becomes `Except E T` with a structured error
  type per module; the structured constructors carry exactly the data the
  Rust code formats into the `anyhow!` message.
* `f32` values (temperature, top-p) are modelled as `ℚ`, `u32` as `ℕ`.
  The embedded checks (`(0.0..=1.0).contains`, `v > 0`) are order
  comparisons exact on the parsed values, so `ℚ`/`ℕ` is faithful for them.
* Library string parsing (`str::parse`, `eq_ignore_ascii_case`) is
  external to the repository; a command argument is modelled by the
  record of the observations the repository's code makes of the string
  (see `Tok`).
* `serde_json::from_slice` is likewise external: `handle_api_response`
  takes the decode result (`Option T`) as an argument and embeds the
  repository's own match on it.
* String scanning helpers (`trim`, `starts_with`, `to_lowercase`,
  prefix removal) are re-implemented over `String.data` so that every
  definition evaluates inside the kernel.
-/

namespace LlmCli

/-! ## String primitives (kernel-computable re-implementations) -/

/-- Drop leading and trailing whitespace from a character list. -/
def trimChars (cs : List Char) : List Char :=
  ((cs.dropWhile Char.isWhitespace).reverse.dropWhile Char.isWhitespace).reverse

/-- `str::trim` of Rust, over `String.data`. -/
def strTrim (s : String) : String := ⟨trimChars s.data⟩

/-- Leading-segment test on character lists. -/
def leadChars : List Char → List Char → Bool
  | [], _ => true
  | _ :: _, [] => false
  | a :: p, b :: s => a = b && leadChars p s

/-- `str::starts_with pat` of Rust: `strStarts s pat` is true when `pat`
is a leading segment of `s`. -/
def strStarts (s pat : String) : Bool := leadChars pat.data s.data

/-- ASCII lowering, standing in for `str::to_lowercase` (the compared
command and provider names are all ASCII). -/
def lowerStr (s : String) : String := ⟨s.data.map Char.toLower⟩

/-- Drop the first `n` characters of a string. -/
def strDropN (s : String) (n : Nat) : String := ⟨s.data.drop n⟩

/-- `str::trim_end_matches('/')` of Rust: remove every trailing slash. -/
def trimTrailingSlash (s : String) : String :=
  ⟨(s.data.reverse.dropWhile (fun c => c = '/')).reverse⟩

/-! ## Data model: `src/config.rs` -/

/-- `enum LlmProvider` of `src/config.rs`. -/
inductive LlmProvider where
  | Ollama
  | Gemini
  | Groq
  | HuggingFace
deriving DecidableEq, Repr

/-- `LlmProvider::get_provider_api_key_name` of `src/config.rs`
(empty string for the local provider, which needs no key). -/
def LlmProvider.get_provider_api_key_name : LlmProvider → String
  | .Ollama => ""
  | .Gemini => "GEMINI_API_KEY"
  | .Groq => "GROQ_API_KEY"
  | .HuggingFace => "HUGGINGFACE_API_KEY"

/-- `struct Config` of `src/config.rs`: the mutable session state.
`f32` fields are modelled as `ℚ`, `u32` as `ℕ`. -/
structure Config where
  active_provider : LlmProvider
  ollama_base_url : String
  default_ollama_model : String
  gemini_api_key : Option String
  default_gemini_model : String
  gemini_temperature : Option ℚ
  gemini_top_p : Option ℚ
  gemini_max_tokens : Option ℕ
  groq_api_key : Option String
  default_groq_model : String
  groq_api_base_url : String
  huggingface_api_key : Option String
  default_huggingface_model : String
deriving DecidableEq, Repr

/-- `impl Default for Config` of `src/config.rs` (the numeric literal
`0.7` is the rational `7/10`). -/
def Config.default : Config where
  active_provider := .Ollama
  ollama_base_url := "http://localhost:11434"
  default_ollama_model := "llama3"
  gemini_api_key := none
  default_gemini_model := "gemini-1.5-pro-latest"
  gemini_temperature := some (7/10 : ℚ)
  gemini_top_p := none
  gemini_max_tokens := some 2048
  groq_api_key := none
  default_groq_model := "llama3-8b-8192"
  groq_api_base_url := "https://api.groq.com/openai/v1"
  huggingface_api_key := none
  default_huggingface_model := "meta-llama/Llama-2-7b-chat-hf"

/-- The API key a given provider variant would use, generalizing
`Config::get_active_api_key` of `src/config.rs` to an arbitrary target
provider. -/
def Config.provider_api_key (cfg : Config) : LlmProvider → Option String
  | .Ollama => none
  | .Gemini => cfg.gemini_api_key
  | .Groq => cfg.groq_api_key
  | .HuggingFace => cfg.huggingface_api_key

/-- `Config::get_active_api_key` of `src/config.rs`. -/
def Config.get_active_api_key (cfg : Config) : Option String :=
  cfg.provider_api_key cfg.active_provider

/-! ## Gemini provider: `src/llm/gemini.rs`

Response schema (the deserialized shape) and the pure classification the
`generate` function performs on a parsed `GeminiResponse`. -/

/-- `struct Part` of `src/llm/gemini.rs`. -/
structure Part where
  text : String
deriving DecidableEq, Repr

/-- `struct SafetyRating` of `src/llm/gemini.rs`. -/
structure SafetyRating where
  category : String
  probability : String
deriving DecidableEq, Repr

/-- `struct ContentResponse` of `src/llm/gemini.rs`. -/
structure ContentResponse where
  parts : Option (List Part)
  role : Option String
deriving DecidableEq, Repr

/-- `struct Candidate` of `src/llm/gemini.rs`. -/
structure Candidate where
  content : Option ContentResponse
  finish_reason : Option String
  safety_ratings : Option (List SafetyRating)
deriving DecidableEq, Repr

/-- `struct PromptFeedback` of `src/llm/gemini.rs`. -/
structure PromptFeedback where
  block_reason : Option String
  safety_ratings : Option (List SafetyRating)
deriving DecidableEq, Repr

/-- `struct ApiError` of `src/llm/gemini.rs`. -/
structure GeminiApiError where
  code : ℕ
  message : String
  status : String
deriving DecidableEq, Repr

/-- `struct GeminiResponse` of `src/llm/gemini.rs`. -/
structure GeminiResponse where
  candidates : Option (List Candidate)
  prompt_feedback : Option PromptFeedback
  error : Option GeminiApiError
deriving DecidableEq, Repr

/-- The classified error outcomes `gemini::generate` can produce after a
successful parse; each constructor carries the data the Rust code
formats into the corresponding `anyhow!` message. -/
inductive GeminiErr where
  | apiError (code : ℕ) (status : String) (message : String)
  | promptBlocked (reason : String) (ratings : Option (List SafetyRating))
  | noCandidates
  | finishedEarly (reason : String) (safetyInfo : Option (Option (List SafetyRating)))
  | contentMissing
  | partsMissing
  | partsEmpty
deriving DecidableEq, Repr

/-- The prompt-feedback block check of `gemini::generate`: the blocked
reason (with the feedback's safety ratings) when `prompt_feedback` is
present and carries a `block_reason`. -/
def geminiBlock (r : GeminiResponse) : Option (String × Option (List SafetyRating)) :=
  match r.prompt_feedback with
  | some fb =>
    match fb.block_reason with
    | some reason => some (reason, fb.safety_ratings)
    | none => none
  | none => none

/-- `gemini_response.candidates.as_ref().and_then(|c| c.first())`. -/
def geminiFirstCandidate (r : GeminiResponse) : Option Candidate :=
  r.candidates.bind List.head?

/-- The nested text extraction at the end of `gemini::generate`:
candidate → content → parts → first part's text, each missing level a
named error. -/
def gemini_extract_text (c : Candidate) : Except GeminiErr String :=
  match c.content with
  | none => .error .contentMissing
  | some content =>
    match content.parts with
    | none => .error .partsMissing
    | some [] => .error .partsEmpty
    | some (p :: _) => .ok p.text

/-- The response normalization of `gemini::generate`
(`src/llm/gemini.rs`, after `handle_api_response` has produced a parsed
`GeminiResponse`): top-level API error, then prompt-feedback block, then
non-empty candidates, then the finish-reason gate
(`unwrap_or("UNKNOWN")`, error unless `STOP` or `UNKNOWN`, safety detail
attached exactly when the reason is `SAFETY`), then text extraction. -/
def gemini_generate_classify (r : GeminiResponse) : Except GeminiErr String :=
  match r.error with
  | some e => .error (.apiError e.code e.status e.message)
  | none =>
    match geminiBlock r with
    | some (reason, ratings) => .error (.promptBlocked reason ratings)
    | none =>
      match geminiFirstCandidate r with
      | none => .error .noCandidates
      | some c =>
        let finish := c.finish_reason.getD "UNKNOWN"
        if finish ≠ "STOP" ∧ finish ≠ "UNKNOWN" then
          .error (.finishedEarly finish
            (if finish = "SAFETY" then some c.safety_ratings else none))
        else
          gemini_extract_text c

/-- `struct GeminiModelInfo` of `src/llm/gemini.rs`. -/
structure GeminiModelInfo where
  name : String
  display_name : Option String
  version : Option String
  supported_generation_methods : Option (List String)
deriving DecidableEq, Repr

/-- `struct GeminiListModelsResponse` of `src/llm/gemini.rs`. -/
structure GeminiListModelsResponse where
  models : Option (List GeminiModelInfo)
  error : Option GeminiApiError
deriving DecidableEq, Repr

/-- Whether a listed Gemini model supports text generation:
`supported_generation_methods.as_deref().unwrap_or(&[]).contains("generateContent")`. -/
def geminiSupportsGenerate (m : GeminiModelInfo) : Bool :=
  (m.supported_generation_methods.getD []).contains "generateContent"

/-- The model-id mapping of `gemini::list_models`: keep models
supporting `generateContent`, then `filter_map` through
`name.strip_prefix("models/")` (dropping names without that leading tag
and removing its 7 characters from the rest). -/
def gemini_chat_model_ids (models : List GeminiModelInfo) : List String :=
  (models.filter geminiSupportsGenerate).filterMap fun m =>
    if strStarts m.name "models/" then some (strDropN m.name 7) else none

/-- The post-parse step of `gemini::list_models`: top-level API error,
otherwise `models.unwrap_or_default()` fed to the capability filter. -/
def gemini_list_models_classify (r : GeminiListModelsResponse) :
    Except GeminiErr (List String) :=
  match r.error with
  | some e => .error (.apiError e.code e.status e.message)
  | none => .ok (gemini_chat_model_ids (r.models.getD []))

/-! ## Shared OpenAI-compatible schema: `src/llm/openai_compatible.rs`
(used by the Groq provider through `src/llm/groq.rs`). -/

/-- `struct ResponseMessage` of `src/llm/openai_compatible.rs`. -/
structure ResponseMessage where
  role : String
  content : Option String
deriving DecidableEq, Repr

/-- `struct ChatChoice` of `src/llm/openai_compatible.rs`. -/
structure ChatChoice where
  index : ℕ
  message : ResponseMessage
  finish_reason : Option String
deriving DecidableEq, Repr

/-- `struct ApiError` of `src/llm/openai_compatible.rs`. -/
structure OaiApiError where
  message : String
  error_type : Option String
  param : Option String
  code : Option String
deriving DecidableEq, Repr

/-- `struct ChatCompletionResponse` of `src/llm/openai_compatible.rs`. -/
structure ChatCompletionResponse where
  id : Option String
  object : Option String
  created : Option ℕ
  model : Option String
  choices : List ChatChoice
  error : Option OaiApiError
deriving DecidableEq, Repr

/-- Classified error outcomes of `openai_compatible::generate` after a
successful parse. -/
inductive OaiErr where
  | apiError (message : String) (error_type : Option String) (code : Option String)
  | noContent
deriving DecidableEq, Repr

/-- The response normalization of `openai_compatible::generate`
(`src/llm/openai_compatible.rs`, after `handle_api_response`): body-level
API error, then `choices.first().and_then(|choice| choice.message.content)`.
The parsed `finish_reason` is never inspected (the source carries only a
`Consider checking finish_reason if needed` comment). -/
def openai_generate_classify (r : ChatCompletionResponse) : Except OaiErr String :=
  match r.error with
  | some e => .error (.apiError e.message e.error_type e.code)
  | none =>
    match r.choices.head? with
    | none => .error .noContent
    | some choice =>
      match choice.message.content with
      | none => .error .noContent
      | some text => .ok text

/-- `struct ModelInfo` of `src/llm/openai_compatible.rs`. -/
structure OaiModelInfo where
  id : String
  object : String
  created : Option ℕ
  owned_by : Option String
deriving DecidableEq, Repr

/-- `struct ListModelsResponse` of `src/llm/openai_compatible.rs`. -/
structure OaiListModelsResponse where
  object : String
  data : List OaiModelInfo
  error : Option OaiApiError
deriving DecidableEq, Repr

/-- Post-parse step of `openai_compatible::list_models`: body-level API
error, otherwise every listed id in order (no capability filter in this
schema). -/
def openai_list_models_classify (r : OaiListModelsResponse) :
    Except OaiErr (List String) :=
  match r.error with
  | some e => .error (.apiError e.message e.error_type e.code)
  | none => .ok (r.data.map OaiModelInfo.id)

/-! ## Ollama provider: `src/llm/ollama.rs` -/

/-- `struct OllamaResponse` of `src/llm/ollama.rs`.  The `done` flag is
parsed but never read by `generate`. -/
structure OllamaResponse where
  model : String
  created_at : String
  response : String
  done : Bool
deriving DecidableEq, Repr

/-- The response normalization of `ollama::generate`
(`src/llm/ollama.rs`): after a successful parse the `response` field is
returned unconditionally; neither `done` nor any finish signal is
checked, so there is no error case. -/
def ollama_generate_classify (r : OllamaResponse) : Except String String :=
  .ok r.response

/-- `struct OllamaTag` of `src/llm/ollama.rs`. -/
structure OllamaTag where
  name : String
  modified_at : String
  size : ℕ
deriving DecidableEq, Repr

/-- Post-parse step of `ollama::list_models`: every tag name in order. -/
def ollama_list_models_classify (tags : List OllamaTag) : Except String (List String) :=
  .ok (tags.map OllamaTag.name)

/-! ## HuggingFace provider: `src/llm/huggingface.rs` -/

/-- `struct HuggingFaceResponse` of `src/llm/huggingface.rs`. -/
structure HuggingFaceResponse where
  generated_text : Option String
  error : Option String
deriving DecidableEq, Repr

/-- Classified error outcomes of `huggingface::generate`. -/
inductive HfErr where
  | apiError (message : String)
  | noGeneratedText
deriving DecidableEq, Repr

/-- The response normalization of `huggingface::generate`
(`src/llm/huggingface.rs`): body-level error string, otherwise
`generated_text` or a missing-text error.  The schema carries no finish
reason. -/
def huggingface_generate_classify (r : HuggingFaceResponse) : Except HfErr String :=
  match r.error with
  | some e => .error (.apiError e)
  | none =>
    match r.generated_text with
    | some t => .ok t
    | none => .error .noGeneratedText

/-- `huggingface::list_models` is a stub returning an empty vector. -/
def huggingface_list_models : Except HfErr (List String) := .ok []

/-! ## Shared body-parsing step: `handle_api_response`

Each provider module carries a bit-identical `handle_api_response` that
reads the HTTP status and body bytes and matches on
`serde_json::from_slice::<T>`.  The serde decode itself is library code;
the embedding takes its result (`Option T`) as an argument and embeds
the repository's match on it.  On decode failure the constructed error
carries the chosen base message (which depends on `status.is_success()`),
the status, and the body string in full (`String::from_utf8_lossy`
applied to all of the bytes; no truncation is applied). -/

/-- `reqwest::StatusCode::is_success`: the 2xx range. -/
def status_is_success (status : ℕ) : Bool := 200 ≤ status && status < 300

/-- The data the parse-failure `anyhow!` message of `handle_api_response`
is formatted from. -/
structure ParseFailure where
  opName : String
  statusSuccess : Bool
  status : ℕ
  body : String
deriving DecidableEq, Repr

/-- `handle_api_response` of the provider modules, with the serde decode
result supplied as `decoded`. -/
def handle_api_response (T : Type) (opName : String) (status : ℕ) (body : String)
    (decoded : Option T) : Except ParseFailure T :=
  match decoded with
  | some t => .ok t
  | none =>
    .error { opName := opName, statusSuccess := status_is_success status,
             status := status, body := body }

/-- A 500-character response body, well beyond the 100-character
truncation (`{:.100}`) the connection-check error paths apply; used to
exhibit that the parse-failure path truncates nothing. -/
def long_body_500 : String := String.mk (List.replicate 500 'a')

/-! ## `check_connection` request shapes (for the timeout claim)

The externally observable timing datum of each provider's reachability
probe is whether the issued request carries a per-request timeout
(`reqwest`'s `RequestBuilder::timeout`).  The client is built with
`Client::new()` (`src/main.rs`), which sets no total timeout, so
`timeoutSecs = none` means the probe inherits an unbounded default. -/

/-- Method, URL and optional per-request timeout (in seconds) of one
HTTP request issued by the embedded code. -/
structure HttpRequestPlan where
  method : String
  url : String
  timeoutSecs : Option ℕ
deriving DecidableEq, Repr

/-- `ollama::check_connection` (`src/llm/ollama.rs`): a GET of the base
URL with `.timeout(Duration::from_secs(5))`. -/
def ollama_check_connection_request (cfg : Config) : HttpRequestPlan :=
  { method := "GET", url := cfg.ollama_base_url, timeoutSecs := some 5 }

/-- `openai_compatible::check_connection`
(`src/llm/openai_compatible.rs`): a GET of `<base>/models` with
`.timeout(Duration::from_secs(10))`. -/
def openai_compatible_check_connection_request (base_url : String) : HttpRequestPlan :=
  { method := "GET", url := trimTrailingSlash base_url ++ "/models",
    timeoutSecs := some 10 }

/-- `groq::check_connection` (`src/llm/groq.rs`): after the key check it
delegates to the shared-schema probe. -/
def groq_check_connection_request (cfg : Config) : Option HttpRequestPlan :=
  cfg.groq_api_key.map fun _ =>
    openai_compatible_check_connection_request cfg.groq_api_base_url

/-- The request issued by `gemini::list_models` (`src/llm/gemini.rs`): a
plain `client.get(url).send()` with no per-request timeout. -/
def gemini_list_models_request (cfg : Config) : Option HttpRequestPlan :=
  cfg.gemini_api_key.map fun key =>
    { method := "GET",
      url := "https://generativelanguage.googleapis.com/v1beta/models?key=" ++ key,
      timeoutSecs := none }

/-- `gemini::check_connection` (`src/llm/gemini.rs`) just calls
`list_models`, so its probe request is the listing request. -/
def gemini_check_connection_request (cfg : Config) : Option HttpRequestPlan :=
  gemini_list_models_request cfg

/-- The request issued by `huggingface::generate`
(`src/llm/huggingface.rs`): a POST of the per-model inference URL with
no per-request timeout. -/
def huggingface_generate_request (cfg : Config) : Option HttpRequestPlan :=
  cfg.huggingface_api_key.map fun _ =>
    { method := "POST",
      url := "https://api-inference.huggingface.co/models/" ++ cfg.default_huggingface_model,
      timeoutSecs := none }

/-- `huggingface::check_connection` (`src/llm/huggingface.rs`) performs
a full generation call on the probe prompt `"test"`, so its probe
request is the generate request. -/
def huggingface_check_connection_request (cfg : Config) : Option HttpRequestPlan :=
  huggingface_generate_request cfg

/-! ## REPL dispatcher: `src/cli/repl.rs` -/

/-- `is_exit_command` of `src/cli/repl.rs`. -/
def is_exit_command (input : String) : Bool :=
  input = "quit" || input = "exit" || input = "/quit" || input = "/exit"

/-- What the main loop of `run_interactive` does with one read line. -/
inductive Dispatch where
  | skip
  | exit
  | shell (raw : String)
  | slash (raw : String)
  | prompt (raw : String)
deriving DecidableEq, Repr

/-- The per-line classification of `run_interactive`
(`src/cli/repl.rs`): trim, discard empty, break on an exit word, then
first match on the `!` marker, then the `/` marker, else a free-text
prompt. -/
def classify_input (line : String) : Dispatch :=
  let input := strTrim line
  if input = "" then .skip
  else if is_exit_command input then .exit
  else if strStarts input "!" then .shell input
  else if strStarts input "/" then .slash input
  else .prompt input

/-- The command name `handle_app_command` extracts from a slash line:
`input[1..].splitn(2, ' ')` first segment, trimmed. -/
def app_command_name (input : String) : String :=
  strTrim ⟨(strDropN input 1).data.takeWhile (fun c => c ≠ ' ')⟩

/-- Outcome of routing one slash command name in `handle_app_command`. -/
inductive AppCmdOutcome where
  | handled (cmd : String)
  | exitNoop (cmd : String)
  | unknownMessage (cmd : String)
deriving DecidableEq, Repr

/-- The command names `handle_app_command` matches (besides the
`quit`/`exit` no-op arm). -/
def known_app_commands : List String :=
  ["help", "status", "use", "model", "model_list", "select_model",
   "gemini_config", "groq_config", "huggingface_config", "config"]

/-- The match of `handle_app_command` (`src/cli/repl.rs`) on the command
name: every arm, the unknown-command arm included, returns `Ok(())`, so
an unknown name renders a message and never propagates an error. -/
def handle_app_command_route (input : String) : Except String AppCmdOutcome :=
  let cmd := app_command_name input
  if cmd = "quit" || cmd = "exit" then .ok (.exitNoop cmd)
  else if known_app_commands.contains cmd then .ok (.handled cmd)
  else .ok (.unknownMessage cmd)

/-! ## `/use` (switch provider): `handle_use_command` of `src/cli/repl.rs` -/

/-- The messages `handle_use_command` prints. -/
inductive UseOutcome where
  | usage
  | switched (p : LlmProvider)
  | keyMissing (envVar : String)
  | unknownProvider (raw : String)
deriving DecidableEq, Repr

/-- `handle_use_command` of `src/cli/repl.rs` as a pure state
transformer: exactly one argument, lowercased and matched against the
provider names; hosted providers are gated on their API key being
present, Ollama is not; only `active_provider` is ever written. -/
def handle_use_command (cfg : Config) (args : List String) : Config × UseOutcome :=
  match args with
  | [a] =>
    if lowerStr a = "ollama" then
      ({ cfg with active_provider := .Ollama }, .switched .Ollama)
    else if lowerStr a = "gemini" then
      match cfg.gemini_api_key with
      | none => (cfg, .keyMissing "GEMINI_API_KEY")
      | some _ => ({ cfg with active_provider := .Gemini }, .switched .Gemini)
    else if lowerStr a = "groq" then
      match cfg.groq_api_key with
      | none => (cfg, .keyMissing "GROQ_API_KEY")
      | some _ => ({ cfg with active_provider := .Groq }, .switched .Groq)
    else if lowerStr a = "huggingface" then
      match cfg.huggingface_api_key with
      | none => (cfg, .keyMissing "HUGGINGFACE_API_KEY")
      | some _ => ({ cfg with active_provider := .HuggingFace }, .switched .HuggingFace)
    else (cfg, .unknownProvider a)
  | _ => (cfg, .usage)

/-- The lowercase argument `handle_use_command` matches for each
provider variant. -/
def provider_arg_name : LlmProvider → String
  | .Ollama => "ollama"
  | .Gemini => "gemini"
  | .Groq => "groq"
  | .HuggingFace => "huggingface"

/-! ## `/gemini_config`: `handle_gemini_config_command` of `src/cli/repl.rs`

The handler walks the argument vector left to right.  A raw argument
string enters the code only through four observations: its lowercase
form (parameter position), `eq_ignore_ascii_case("reset")`,
`parse::<f32>()` and `parse::<u32>()` (value position).  `Tok` records
those observations; the numeric parses are modelled as `ℚ` / `ℕ`. -/

/-- One argument token of `/gemini_config`, as observed by the code. -/
structure Tok where
  raw : String
  low : String
  isReset : Bool
  asF32 : Option ℚ
  asU32 : Option ℕ
deriving DecidableEq, Repr

/-- The messages `handle_gemini_config_command` prints while walking the
arguments. -/
inductive GcMsg where
  | resetTemp (v : Option ℚ)
  | setTemp (v : ℚ)
  | invalidTempRange (raw : String)
  | invalidTempValue (raw : String)
  | resetTopP (v : Option ℚ)
  | setTopP (v : ℚ)
  | invalidTopPRange (raw : String)
  | invalidTopPValue (raw : String)
  | resetMaxTokens (v : Option ℕ)
  | setMaxTokens (v : ℕ)
  | invalidMaxTokensRange (raw : String)
  | invalidMaxTokensValue (raw : String)
  | resetAll
  | unknownParam (raw : String)
deriving DecidableEq, Repr

/-- The `("temp", Some(vs))` arm: reset to the built-in default, or set
when the parsed value lies in `0.0..=1.0`, else reject without writing. -/
def apply_temp (cfg : Config) (v : Tok) : Config × GcMsg :=
  if v.isReset then
    ({ cfg with gemini_temperature := Config.default.gemini_temperature },
     .resetTemp Config.default.gemini_temperature)
  else
    match v.asF32 with
    | some q =>
      if 0 ≤ q ∧ q ≤ 1 then ({ cfg with gemini_temperature := some q }, .setTemp q)
      else (cfg, .invalidTempRange v.raw)
    | none => (cfg, .invalidTempValue v.raw)

/-- The `("top_p", Some(vs))` arm, symmetric to `apply_temp`. -/
def apply_top_p (cfg : Config) (v : Tok) : Config × GcMsg :=
  if v.isReset then
    ({ cfg with gemini_top_p := Config.default.gemini_top_p },
     .resetTopP Config.default.gemini_top_p)
  else
    match v.asF32 with
    | some q =>
      if 0 ≤ q ∧ q ≤ 1 then ({ cfg with gemini_top_p := some q }, .setTopP q)
      else (cfg, .invalidTopPRange v.raw)
    | none => (cfg, .invalidTopPValue v.raw)

/-- The `("max_tokens", Some(vs))` arm: reset, or set when the parsed
`u32` is positive, else reject without writing. -/
def apply_max_tokens (cfg : Config) (v : Tok) : Config × GcMsg :=
  if v.isReset then
    ({ cfg with gemini_max_tokens := Config.default.gemini_max_tokens },
     .resetMaxTokens Config.default.gemini_max_tokens)
  else
    match v.asU32 with
    | some n =>
      if n > 0 then ({ cfg with gemini_max_tokens := some n }, .setMaxTokens n)
      else (cfg, .invalidMaxTokensRange v.raw)
    | none => (cfg, .invalidMaxTokensValue v.raw)

/-- The `("reset", None)` arm: all three generation parameters are
written back to `Config::default()`'s values in the same handler
invocation. -/
def apply_reset_all (cfg : Config) : Config :=
  { cfg with
    gemini_temperature := Config.default.gemini_temperature,
    gemini_top_p := Config.default.gemini_top_p,
    gemini_max_tokens := Config.default.gemini_max_tokens }

/-- The argument walk of `handle_gemini_config_command`
(`src/cli/repl.rs`, the non-empty-args branch): an index `i` scans the
vector; a recognized parameter with a following value consumes two
tokens, the trailing `reset` (with no following value) consumes one, and
anything else (an unrecognized name, or a recognized name as the last
token) prints the unknown-parameter message and consumes one. -/
def handle_gemini_config_args : Config → List Tok → Config × List GcMsg
  | cfg, [] => (cfg, [])
  | cfg, [t] =>
    if t.low = "reset" then (apply_reset_all cfg, [.resetAll])
    else (cfg, [.unknownParam t.raw])
  | cfg, t :: v :: rest =>
    if t.low = "temp" then
      let step := apply_temp cfg v
      let next := handle_gemini_config_args step.1 rest
      (next.1, step.2 :: next.2)
    else if t.low = "top_p" then
      let step := apply_top_p cfg v
      let next := handle_gemini_config_args step.1 rest
      (next.1, step.2 :: next.2)
    else if t.low = "max_tokens" then
      let step := apply_max_tokens cfg v
      let next := handle_gemini_config_args step.1 rest
      (next.1, step.2 :: next.2)
    else
      let next := handle_gemini_config_args cfg (v :: rest)
      (next.1, GcMsg.unknownParam t.raw :: next.2)

/-! ## Theorems -/

/-- Helper: after the API-error, block and candidate checks pass, the
Gemini classifier is exactly the finish-reason gate followed by text
extraction on the first candidate. -/
theorem gemini_classify_after_checks (r : GeminiResponse) (c : Candidate)
    (rest : List Candidate) (herr : r.error = none)
    (hblock : geminiBlock r = none) (hcand : r.candidates = some (c :: rest)) :
    gemini_generate_classify r =
      (let finish := c.finish_reason.getD "UNKNOWN"
       if finish ≠ "STOP" ∧ finish ≠ "UNKNOWN" then
         Except.error (.finishedEarly finish
           (if finish = "SAFETY" then some c.safety_ratings else none))
       else gemini_extract_text c) := by
  have hfc : geminiFirstCandidate r = some c := by
    simp [geminiFirstCandidate, hcand]
  simp only [gemini_generate_classify, herr, hblock, hfc]

/-- C4: for the Gemini `generate` normalization, once the API-error,
block-reason and non-empty-candidate checks have passed, a present
finish reason other than the normal-stop sentinel `STOP` and the unknown
sentinel `UNKNOWN` yields the finish-reason error (carrying the safety
ratings exactly when the reason is `SAFETY`); with an absent, `UNKNOWN`
or `STOP` finish reason the classifier proceeds to text extraction, and
it succeeds exactly when the finish reason is permissive and the nested
text is present. -/
theorem gemini_finish_reason_classification (r : GeminiResponse) (c : Candidate)
    (rest : List Candidate) (herr : r.error = none)
    (hblock : geminiBlock r = none) (hcand : r.candidates = some (c :: rest)) :
    (∀ fr, c.finish_reason = some fr → fr ≠ "STOP" → fr ≠ "UNKNOWN" →
        gemini_generate_classify r =
          Except.error (.finishedEarly fr
            (if fr = "SAFETY" then some c.safety_ratings else none)))
    ∧ ((c.finish_reason = none ∨ c.finish_reason = some "UNKNOWN" ∨
          c.finish_reason = some "STOP") →
        gemini_generate_classify r = gemini_extract_text c)
    ∧ ((gemini_generate_classify r).isOk ↔
        ((c.finish_reason = none ∨ c.finish_reason = some "UNKNOWN" ∨
            c.finish_reason = some "STOP") ∧ (gemini_extract_text c).isOk)) := by
  have key := gemini_classify_after_checks r c rest herr hblock hcand
  refine ⟨?_, ?_, ?_⟩
  · intro fr hfr h1 h2
    rw [key, hfr]
    simp [h1, h2]
  · intro hperm
    rw [key]
    rcases hperm with h | h | h <;> simp [h]
  · rw [key]
    rcases hfin : c.finish_reason with _ | fr
    · simp
    · by_cases h1 : fr = "STOP"
      · simp [h1]
      · by_cases h2 : fr = "UNKNOWN"
        · simp [h2]
        · simp [h1, h2, Except.isOk, Except.toBool]

/-- C4 witness: a concrete response passing all earlier checks whose
first candidate finishes with `MAX_TOKENS` is classified as the
finish-reason error even though its text content is present. -/
theorem gemini_finish_reason_classification_witness :
    gemini_generate_classify
      ⟨some [⟨some ⟨some [⟨"hi"⟩], none⟩, some "MAX_TOKENS", none⟩], none, none⟩ =
      Except.error (.finishedEarly "MAX_TOKENS" none) := by
  have h := (gemini_finish_reason_classification
      ⟨some [⟨some ⟨some [⟨"hi"⟩], none⟩, some "MAX_TOKENS", none⟩], none, none⟩
      ⟨some ⟨some [⟨"hi"⟩], none⟩, some "MAX_TOKENS", none⟩ [] rfl rfl rfl).1
      "MAX_TOKENS" rfl (by decide) (by decide)
  simpa using h

/-- C1 counterexample: the shared-schema (OpenAI-compatible) `generate`
returns a transport-successful, schema-valid response with the
non-normal finish reason `length` as a plain success, because it never
inspects `finish_reason`; the claim says such a response is never
returned as success for every variant. -/
theorem openai_generate_success_despite_nonstop_finish :
    openai_generate_classify
      ⟨none, none, none, none, [⟨0, ⟨"assistant", some "hi"⟩, some "length"⟩], none⟩ =
      Except.ok "hi" := rfl

/-- C1 (amended): only the Gemini variant classifies a present
non-`STOP`, non-`UNKNOWN` finish reason as a soft failure (never
success); the OpenAI-compatible variant ignores `finish_reason` and
returns the first choice's content as success whatever that reason is,
and the Ollama variant returns the `response` field unconditionally,
ignoring its `done` flag. -/
theorem finish_reason_soft_failure_gemini_only :
    (∀ (r : GeminiResponse) (c : Candidate) (rest : List Candidate) (fr : String),
        r.candidates = some (c :: rest) → c.finish_reason = some fr →
        fr ≠ "STOP" → fr ≠ "UNKNOWN" →
        ∀ t, gemini_generate_classify r ≠ Except.ok t)
    ∧ (∀ (r : ChatCompletionResponse) (choice : ChatChoice) (rest : List ChatChoice)
          (text : String),
        r.error = none → r.choices = choice :: rest →
        choice.message.content = some text →
        openai_generate_classify r = Except.ok text)
    ∧ (∀ (r : OllamaResponse), ollama_generate_classify r = Except.ok r.response) := by
  refine ⟨?_, ?_, ?_⟩
  · intro r c rest fr hcand hfr h1 h2 t
    cases herr : r.error with
    | some e => simp [gemini_generate_classify, herr]
    | none =>
      cases hb : geminiBlock r with
      | some br => simp [gemini_generate_classify, herr, hb]
      | none =>
        rw [gemini_classify_after_checks r c rest herr hb hcand, hfr]
        simp [h1, h2]
  · intro r choice rest text herr hch hct
    simp [openai_generate_classify, herr, hch, hct]
  · intro r
    rfl

/-- C1 witness: the theorem applied at concrete responses — a Gemini
response finishing with `SAFETY` is not a success, an OpenAI-compatible
response finishing with `length` succeeds with its content, and an
Ollama response with `done = false` succeeds with its `response`
field. -/
theorem finish_reason_soft_failure_gemini_only_witness :
    (∀ t, gemini_generate_classify
        ⟨some [⟨some ⟨some [⟨"hi"⟩], none⟩, some "SAFETY", none⟩], none, none⟩ ≠
        Except.ok t)
    ∧ openai_generate_classify
        ⟨none, none, none, none, [⟨0, ⟨"assistant", some "cut off"⟩, some "length"⟩], none⟩ =
        Except.ok "cut off"
    ∧ ollama_generate_classify ⟨"llama3", "now", "partial", false⟩ =
        Except.ok "partial" := by
  refine ⟨?_, ?_, ?_⟩
  · exact fun t =>
      finish_reason_soft_failure_gemini_only.1
        ⟨some [⟨some ⟨some [⟨"hi"⟩], none⟩, some "SAFETY", none⟩], none, none⟩
        ⟨some ⟨some [⟨"hi"⟩], none⟩, some "SAFETY", none⟩ [] "SAFETY"
        rfl rfl (by decide) (by decide) t
  · exact finish_reason_soft_failure_gemini_only.2.1
      ⟨none, none, none, none, [⟨0, ⟨"assistant", some "cut off"⟩, some "length"⟩], none⟩
      ⟨0, ⟨"assistant", some "cut off"⟩, some "length"⟩ [] "cut off" rfl rfl rfl
  · exact finish_reason_soft_failure_gemini_only.2.2 ⟨"llama3", "now", "partial", false⟩

/-- C3 counterexample: on a decode failure the shared
`handle_api_response` builds an error carrying the response body whole —
here all 500 characters — not a bounded or truncated prefix as the claim
states. -/
theorem parse_failure_carries_whole_body :
    handle_api_response GeminiResponse "Gemini generate" 200 long_body_500 none =
      Except.error ⟨"Gemini generate", true, 200, long_body_500⟩ ∧
    long_body_500.length = 500 := by
  refine ⟨rfl, ?_⟩
  show (List.replicate 500 'a').length = 500
  rw [List.length_replicate]

/-- C3 (amended): for every provider operation sharing
`handle_api_response`, a body that fails structured parsing yields a
classified parse error carrying the HTTP status, the
success/failure-dependent base message selector, and the entire raw body
(untruncated); the failure is never coerced to a success value. -/
theorem handle_api_response_parse_failure_full_body (T : Type) (opName : String)
    (status : ℕ) (body : String) :
    handle_api_response T opName status body none =
      Except.error ⟨opName, status_is_success status, status, body⟩ ∧
    ∀ t : T, handle_api_response T opName status body none ≠ Except.ok t := by
  exact ⟨rfl, fun t h => by cases h⟩

/-- C3 witness: the amended theorem instantiated at a concrete failed
decode of a Gemini body with HTTP status 503. -/
theorem handle_api_response_parse_failure_full_body_witness :
    handle_api_response GeminiResponse "Gemini generate" 503 "oops" none =
      Except.error ⟨"Gemini generate", false, 503, "oops"⟩ ∧
    ∀ t, handle_api_response GeminiResponse "Gemini generate" 503 "oops" none ≠
      Except.ok t := by
  have h := handle_api_response_parse_failure_full_body GeminiResponse
    "Gemini generate" 503 "oops"
  simpa using h

/-- C2: `/use` applied to any session state and any target provider:
when the target requires an API key (every hosted variant) and that key
is absent, the whole state is returned unchanged together with the
missing-key (configuration-error) message naming the key's environment
variable; when the target is the local provider or its key is present,
exactly the `active_provider` field is set to the target and every other
field is left untouched. -/
theorem handle_use_command_key_gate (cfg : Config) (p : LlmProvider) :
    (p ≠ LlmProvider.Ollama → cfg.provider_api_key p = none →
        handle_use_command cfg [provider_arg_name p] =
          (cfg, UseOutcome.keyMissing p.get_provider_api_key_name))
    ∧ ((p = LlmProvider.Ollama ∨ cfg.provider_api_key p ≠ none) →
        handle_use_command cfg [provider_arg_name p] =
          ({ cfg with active_provider := p }, UseOutcome.switched p)) := by
  cases p with
  | Ollama =>
    exact ⟨fun h => absurd rfl h, fun _ => rfl⟩
  | Gemini =>
    constructor
    · intro _ hk
      have hgk : cfg.gemini_api_key = none := hk
      simp only [handle_use_command, provider_arg_name]
      rw [if_neg (by decide), if_pos (by decide), hgk]
      rfl
    · intro h
      have hk : cfg.gemini_api_key ≠ none := by
        rcases h with h | h
        · cases h
        · exact h
      rcases hg : cfg.gemini_api_key with _ | k
      · exact absurd hg hk
      · simp only [handle_use_command, provider_arg_name]
        rw [if_neg (by decide), if_pos (by decide), hg]
  | Groq =>
    constructor
    · intro _ hk
      have hgk : cfg.groq_api_key = none := hk
      simp only [handle_use_command, provider_arg_name]
      rw [if_neg (by decide), if_neg (by decide), if_pos (by decide), hgk]
      rfl
    · intro h
      have hk : cfg.groq_api_key ≠ none := by
        rcases h with h | h
        · cases h
        · exact h
      rcases hg : cfg.groq_api_key with _ | k
      · exact absurd hg hk
      · simp only [handle_use_command, provider_arg_name]
        rw [if_neg (by decide), if_neg (by decide), if_pos (by decide), hg]
  | HuggingFace =>
    constructor
    · intro _ hk
      have hgk : cfg.huggingface_api_key = none := hk
      simp only [handle_use_command, provider_arg_name]
      rw [if_neg (by decide), if_neg (by decide), if_neg (by decide),
        if_pos (by decide), hgk]
      rfl
    · intro h
      have hk : cfg.huggingface_api_key ≠ none := by
        rcases h with h | h
        · cases h
        · exact h
      rcases hg : cfg.huggingface_api_key with _ | k
      · exact absurd hg hk
      · simp only [handle_use_command, provider_arg_name]
        rw [if_neg (by decide), if_neg (by decide), if_neg (by decide),
          if_pos (by decide), hg]

/-- C2 witness: from the default session state (no keys configured),
`/use groq` leaves the state unchanged with the missing-key message, and
`/use ollama` switches the active provider and nothing else. -/
theorem handle_use_command_key_gate_witness :
    handle_use_command Config.default [provider_arg_name LlmProvider.Groq] =
      (Config.default, UseOutcome.keyMissing "GROQ_API_KEY")
    ∧ handle_use_command Config.default [provider_arg_name LlmProvider.Ollama] =
      ({ Config.default with active_provider := LlmProvider.Ollama },
       UseOutcome.switched LlmProvider.Ollama) := by
  constructor
  · exact (handle_use_command_key_gate Config.default LlmProvider.Groq).1
      (by decide) rfl
  · exact (handle_use_command_key_gate Config.default LlmProvider.Ollama).2
      (Or.inl rfl)

/-- C5: a `/gemini_config` invocation consisting of one parameter/value
pair rejects a temperature or top-p value outside `[0, 1]`, a
non-positive max-tokens value, and an unparseable value, and in every
rejection case returns the session state unchanged together with the
message citing the valid range (or the invalid value). -/
theorem gemini_config_rejection_leaves_state (cfg : Config) (t v : Tok) :
    (t.low = "temp" → v.isReset = false →
        (∀ q, v.asF32 = some q → ¬(0 ≤ q ∧ q ≤ 1) →
            handle_gemini_config_args cfg [t, v] =
              (cfg, [GcMsg.invalidTempRange v.raw]))
        ∧ (v.asF32 = none →
            handle_gemini_config_args cfg [t, v] =
              (cfg, [GcMsg.invalidTempValue v.raw])))
    ∧ (t.low = "top_p" → v.isReset = false →
        (∀ q, v.asF32 = some q → ¬(0 ≤ q ∧ q ≤ 1) →
            handle_gemini_config_args cfg [t, v] =
              (cfg, [GcMsg.invalidTopPRange v.raw]))
        ∧ (v.asF32 = none →
            handle_gemini_config_args cfg [t, v] =
              (cfg, [GcMsg.invalidTopPValue v.raw])))
    ∧ (t.low = "max_tokens" → v.isReset = false →
        (∀ n, v.asU32 = some n → ¬(0 < n) →
            handle_gemini_config_args cfg [t, v] =
              (cfg, [GcMsg.invalidMaxTokensRange v.raw]))
        ∧ (v.asU32 = none →
            handle_gemini_config_args cfg [t, v] =
              (cfg, [GcMsg.invalidMaxTokensValue v.raw]))) := by
  refine ⟨fun ht hr => ⟨?_, ?_⟩, fun ht hr => ⟨?_, ?_⟩, fun ht hr => ⟨?_, ?_⟩⟩
  · intro q hq hrange
    simp [handle_gemini_config_args, ht, apply_temp, hr, hq, hrange]
  · intro hq
    simp [handle_gemini_config_args, ht, apply_temp, hr, hq]
  · intro q hq hrange
    simp [handle_gemini_config_args, ht, apply_top_p, hr, hq, hrange]
  · intro hq
    simp [handle_gemini_config_args, ht, apply_top_p, hr, hq]
  · intro n hn hrange
    simp [handle_gemini_config_args, ht, apply_max_tokens, hr, hn, hrange]
  · intro hn
    simp [handle_gemini_config_args, ht, apply_max_tokens, hr, hn]

/-- C5 witness: `temp 1.5` (parsed value `3/2`, outside the range) and
`max_tokens 0` are rejected from the default state, which is returned
unchanged with the range-citing messages. -/
theorem gemini_config_rejection_leaves_state_witness :
    handle_gemini_config_args Config.default
        [⟨"temp", "temp", false, none, none⟩,
         ⟨"1.5", "1.5", false, some (3/2 : ℚ), none⟩] =
      (Config.default, [GcMsg.invalidTempRange "1.5"])
    ∧ handle_gemini_config_args Config.default
        [⟨"max_tokens", "max_tokens", false, none, none⟩,
         ⟨"0", "0", false, some (0 : ℚ), some 0⟩] =
      (Config.default, [GcMsg.invalidMaxTokensRange "0"]) := by
  constructor
  · exact ((gemini_config_rejection_leaves_state Config.default
        ⟨"temp", "temp", false, none, none⟩
        ⟨"1.5", "1.5", false, some (3/2 : ℚ), none⟩).1 rfl rfl).1
      (3/2 : ℚ) rfl (by norm_num)
  · exact ((gemini_config_rejection_leaves_state Config.default
        ⟨"max_tokens", "max_tokens", false, none, none⟩
        ⟨"0", "0", false, some (0 : ℚ), some 0⟩).2.2 rfl rfl).1
      0 rfl (by norm_num)

/-- C6: from any session state, whatever mutations produced it, the
`reset` argument of `/gemini_config` writes all three generation
parameters back to the built-in defaults (temperature `0.7`, top-p
unset, max-tokens `2048`) in the one handler invocation, leaving every
other field untouched, and those are exactly `Config::default()`'s
values. -/
theorem gemini_config_reset_all_round_trip (cfg : Config) (t : Tok)
    (ht : t.low = "reset") :
    handle_gemini_config_args cfg [t] =
      ({ cfg with gemini_temperature := some (7/10 : ℚ), gemini_top_p := none,
                  gemini_max_tokens := some 2048 }, [GcMsg.resetAll])
    ∧ Config.default.gemini_temperature = some (7/10 : ℚ)
    ∧ Config.default.gemini_top_p = none
    ∧ Config.default.gemini_max_tokens = some 2048 := by
  refine ⟨?_, rfl, rfl, rfl⟩
  simp [handle_gemini_config_args, ht, apply_reset_all, Config.default]

/-- C6 witness: the round trip from a heavily mutated state — every
generation parameter away from its default — lands exactly on the
built-in defaults. -/
theorem gemini_config_reset_all_round_trip_witness :
    handle_gemini_config_args
        { Config.default with gemini_temperature := some (1/100 : ℚ),
                              gemini_top_p := some (9/10 : ℚ),
                              gemini_max_tokens := some 1 }
        [⟨"reset", "reset", true, none, none⟩] =
      ({ Config.default with gemini_temperature := some (7/10 : ℚ),
                             gemini_top_p := none,
                             gemini_max_tokens := some 2048 }, [GcMsg.resetAll]) := by
  have h := (gemini_config_reset_all_round_trip
      { Config.default with gemini_temperature := some (1/100 : ℚ),
                            gemini_top_p := some (9/10 : ℚ),
                            gemini_max_tokens := some 1 }
      ⟨"reset", "reset", true, none, none⟩ rfl).1
  simpa using h

/-- C10: one `/gemini_config` invocation with several parameter/value
pairs walks them left to right and applies each independently: a valid
first pair mutates its field even when the second pair is rejected as
out of range, and a valid second pair mutates its field even when the
first pair was rejected — so the command is not atomic across pairs and
one rejected invocation can leave the state partially updated. -/
theorem gemini_config_pairs_processed_independently (cfg : Config)
    (t1 v1 t2 v2 : Tok) (q1 q2 : ℚ)
    (ht1 : t1.low = "temp") (hr1 : v1.isReset = false) (hq1 : v1.asF32 = some q1)
    (ht2 : t2.low = "top_p") (hr2 : v2.isReset = false) (hq2 : v2.asF32 = some q2) :
    ((0 ≤ q1 ∧ q1 ≤ 1) → ¬(0 ≤ q2 ∧ q2 ≤ 1) →
        handle_gemini_config_args cfg [t1, v1, t2, v2] =
          ({ cfg with gemini_temperature := some q1 },
           [GcMsg.setTemp q1, GcMsg.invalidTopPRange v2.raw]))
    ∧ (¬(0 ≤ q1 ∧ q1 ≤ 1) → (0 ≤ q2 ∧ q2 ≤ 1) →
        handle_gemini_config_args cfg [t1, v1, t2, v2] =
          ({ cfg with gemini_top_p := some q2 },
           [GcMsg.invalidTempRange v1.raw, GcMsg.setTopP q2])) := by
  constructor
  · intro hin hout
    simp [handle_gemini_config_args, ht1, ht2, apply_temp, apply_top_p,
      hr1, hr2, hq1, hq2, hin, hout]
  · intro hout hin
    simp [handle_gemini_config_args, ht1, ht2, apply_temp, apply_top_p,
      hr1, hr2, hq1, hq2, hin, hout]

/-- C10 witness: `temp 0.5 top_p 1.5` updates the temperature and leaves
top-p alone; `temp 1.5 top_p 0.5` leaves the temperature alone and
updates top-p — a single invocation can partially update the state. -/
theorem gemini_config_pairs_processed_independently_witness :
    handle_gemini_config_args Config.default
        [⟨"temp", "temp", false, none, none⟩,
         ⟨"0.5", "0.5", false, some (1/2 : ℚ), none⟩,
         ⟨"top_p", "top_p", false, none, none⟩,
         ⟨"1.5", "1.5", false, some (3/2 : ℚ), none⟩] =
      ({ Config.default with gemini_temperature := some (1/2 : ℚ) },
       [GcMsg.setTemp (1/2 : ℚ), GcMsg.invalidTopPRange "1.5"])
    ∧ handle_gemini_config_args Config.default
        [⟨"temp", "temp", false, none, none⟩,
         ⟨"1.5", "1.5", false, some (3/2 : ℚ), none⟩,
         ⟨"top_p", "top_p", false, none, none⟩,
         ⟨"0.5", "0.5", false, some (1/2 : ℚ), none⟩] =
      ({ Config.default with gemini_top_p := some (1/2 : ℚ) },
       [GcMsg.invalidTempRange "1.5", GcMsg.setTopP (1/2 : ℚ)]) := by
  constructor
  · exact (gemini_config_pairs_processed_independently Config.default
        ⟨"temp", "temp", false, none, none⟩
        ⟨"0.5", "0.5", false, some (1/2 : ℚ), none⟩
        ⟨"top_p", "top_p", false, none, none⟩
        ⟨"1.5", "1.5", false, some (3/2 : ℚ), none⟩
        (1/2 : ℚ) (3/2 : ℚ) rfl rfl rfl rfl rfl rfl).1
      (by norm_num) (by norm_num)
  · exact (gemini_config_pairs_processed_independently Config.default
        ⟨"temp", "temp", false, none, none⟩
        ⟨"1.5", "1.5", false, some (3/2 : ℚ), none⟩
        ⟨"top_p", "top_p", false, none, none⟩
        ⟨"0.5", "0.5", false, some (1/2 : ℚ), none⟩
        (3/2 : ℚ) (1/2 : ℚ) rfl rfl rfl rfl rfl rfl).2
      (by norm_num) (by norm_num)

/-- C7 counterexample: with its API key configured, the Gemini
`check_connection` probe (which just calls `list_models`) issues its
request with no per-request timeout, and so does the HuggingFace probe
(a full `generate` call); the claim says every provider's probe applies
a bounded several-second timeout. -/
theorem gemini_check_connection_no_timeout :
    ((gemini_check_connection_request
        { Config.default with gemini_api_key := some "k" }).map
        HttpRequestPlan.timeoutSecs) = some none
    ∧ ((huggingface_check_connection_request
        { Config.default with huggingface_api_key := some "k" }).map
        HttpRequestPlan.timeoutSecs) = some none := ⟨rfl, rfl⟩

/-- C7 (amended): only two of the four probes bound their own time: the
Ollama `check_connection` request carries a 5-second timeout and the
shared OpenAI-compatible probe used by Groq a 10-second timeout, while
the Gemini and HuggingFace probes issue their requests with no
per-request timeout at all and so inherit the client's unbounded
default. -/
theorem check_connection_timeouts (cfg : Config) :
    (ollama_check_connection_request cfg).timeoutSecs = some 5
    ∧ (∀ p, groq_check_connection_request cfg = some p → p.timeoutSecs = some 10)
    ∧ (∀ p, gemini_check_connection_request cfg = some p → p.timeoutSecs = none)
    ∧ (∀ p, huggingface_check_connection_request cfg = some p →
        p.timeoutSecs = none) := by
  refine ⟨rfl, ?_, ?_, ?_⟩
  · intro p hp
    simp only [groq_check_connection_request] at hp
    obtain ⟨k, hk, hfk⟩ := Option.map_eq_some'.mp hp
    subst hfk
    rfl
  · intro p hp
    simp only [gemini_check_connection_request, gemini_list_models_request] at hp
    obtain ⟨k, hk, hfk⟩ := Option.map_eq_some'.mp hp
    subst hfk
    rfl
  · intro p hp
    simp only [huggingface_check_connection_request,
      huggingface_generate_request] at hp
    obtain ⟨k, hk, hfk⟩ := Option.map_eq_some'.mp hp
    subst hfk
    rfl

/-- C7 witness: the timeout facts instantiated on a state with all three
hosted keys configured, at the concrete probe request each provider
issues. -/
theorem check_connection_timeouts_witness :
    (ollama_check_connection_request
        { Config.default with gemini_api_key := some "g",
                              groq_api_key := some "q",
                              huggingface_api_key := some "h" }).timeoutSecs = some 5
    ∧ (openai_compatible_check_connection_request
        "https://api.groq.com/openai/v1").timeoutSecs = some 10
    ∧ (HttpRequestPlan.mk "GET"
        "https://generativelanguage.googleapis.com/v1beta/models?key=g"
        none).timeoutSecs = none
    ∧ (HttpRequestPlan.mk "POST"
        "https://api-inference.huggingface.co/models/meta-llama/Llama-2-7b-chat-hf"
        none).timeoutSecs = none := by
  have h := check_connection_timeouts
    { Config.default with gemini_api_key := some "g",
                          groq_api_key := some "q",
                          huggingface_api_key := some "h" }
  exact ⟨h.1, h.2.1 _ rfl, h.2.2.1 _ rfl, h.2.2.2 _ rfl⟩

/-- C8 counterexample: the bare line `quit` is non-empty after trimming
and begins with neither the shell marker nor the slash marker, yet the
loop breaks out instead of dispatching it as a free-text prompt, because
the exit-word check runs before classification. -/
theorem quit_line_not_dispatched_as_prompt :
    strTrim "quit" = "quit" ∧ strStarts "quit" "!" = false
    ∧ strStarts "quit" "/" = false
    ∧ classify_input "quit" = Dispatch.exit := ⟨rfl, rfl, rfl, rfl⟩

/-- Helper: an exit word is a non-empty string. -/
theorem is_exit_command_ne_empty (s : String) (h : is_exit_command s = true) :
    s ≠ "" := by
  simp only [is_exit_command, Bool.or_eq_true, decide_eq_true_eq] at h
  rcases h with ((h | h) | h) | h <;> subst h <;> decide

/-- C8 (amended): the loop classifies every trimmed line by first match
— empty lines are discarded, the four bare/slash exit words terminate
the loop, then a leading `!` means shell escape, a leading `/` means
slash command, and anything else is a free-text prompt; slash routing is
total, and an unknown command name yields the unknown-command message
with `Ok` (no error propagation). -/
theorem dispatcher_classification (line : String) :
    (strTrim line ≠ "" → is_exit_command (strTrim line) = false →
        (strStarts (strTrim line) "!" = true →
            classify_input line = Dispatch.shell (strTrim line))
        ∧ (strStarts (strTrim line) "!" = false →
            strStarts (strTrim line) "/" = true →
            classify_input line = Dispatch.slash (strTrim line))
        ∧ (strStarts (strTrim line) "!" = false →
            strStarts (strTrim line) "/" = false →
            classify_input line = Dispatch.prompt (strTrim line)))
    ∧ (strTrim line = "" → classify_input line = Dispatch.skip)
    ∧ (is_exit_command (strTrim line) = true → classify_input line = Dispatch.exit)
    ∧ (∀ input, ∃ o, handle_app_command_route input = Except.ok o)
    ∧ (∀ input, app_command_name input ≠ "quit" → app_command_name input ≠ "exit" →
        known_app_commands.contains (app_command_name input) = false →
        handle_app_command_route input =
          Except.ok (AppCmdOutcome.unknownMessage (app_command_name input))) := by
  refine ⟨fun hne hexit => ⟨?_, ?_, ?_⟩, ?_, ?_, ?_, ?_⟩
  · intro hbang
    simp [classify_input, hne, hexit, hbang]
  · intro hbang hslash
    simp [classify_input, hne, hexit, hbang, hslash]
  · intro hbang hslash
    simp [classify_input, hne, hexit, hbang, hslash]
  · intro hempty
    simp [classify_input, hempty]
  · intro hexit
    have hne := is_exit_command_ne_empty _ hexit
    simp [classify_input, hne, hexit]
  · intro input
    simp only [handle_app_command_route]
    split
    · exact ⟨_, rfl⟩
    · split
      · exact ⟨_, rfl⟩
      · exact ⟨_, rfl⟩
  · intro input h1 h2 h3
    simp only [handle_app_command_route]
    rw [if_neg (by simp [h1, h2]), if_neg (by simpa using h3)]

/-- C8 witness: a plain line is dispatched as a free-text prompt, and an
unknown slash command routes to the unknown-command message without an
error. -/
theorem dispatcher_classification_witness :
    classify_input "hello there" = Dispatch.prompt "hello there"
    ∧ handle_app_command_route "/frobnicate now" =
        Except.ok (AppCmdOutcome.unknownMessage "frobnicate") := by
  constructor
  · have h := ((dispatcher_classification "hello there").1
      (by decide) (by decide)).2.2 (by decide) (by decide)
    have ht : strTrim "hello there" = "hello there" := rfl
    rw [ht] at h
    exact h
  · have h := (dispatcher_classification "").2.2.2.2 "/frobnicate now"
      (by decide) (by decide) (by decide)
    have hc : app_command_name "/frobnicate now" = "frobnicate" := rfl
    rw [hc] at h
    exact h

/-- C9 counterexample: a listed model that supports `generateContent`
but whose name lacks the `models/` tag is silently dropped by the Gemini
`list_models` mapping, so the operation does not return exactly the
capable models' names. -/
theorem gemini_list_models_drops_untagged_model :
    gemini_chat_model_ids [⟨"foo", none, none, some ["generateContent"]⟩] = []
    ∧ geminiSupportsGenerate ⟨"foo", none, none, some ["generateContent"]⟩ = true :=
  ⟨rfl, rfl⟩

/-- C9 (amended): the Gemini `list_models` mapping returns, in the
provider's order, the models that both support `generateContent` and
carry a name beginning with `models/`, each surfaced under its name with
that 7-character tag removed; models lacking the capability are never
surfaced, and capable models without the tag are dropped as well. -/
theorem gemini_chat_model_ids_characterization (models : List GeminiModelInfo) :
    gemini_chat_model_ids models =
      (models.filter
          (fun m => geminiSupportsGenerate m && strStarts m.name "models/")).map
        (fun m => strDropN m.name 7) := by
  induction models with
  | nil => rfl
  | cons m ms ih =>
    simp only [gemini_chat_model_ids] at ih ⊢
    by_cases hs : geminiSupportsGenerate m <;>
      by_cases hp : strStarts m.name "models/" <;>
        simp [List.filter_cons, List.filterMap_cons, hs, hp, ih]

end LlmCli
